import Mathlib

/-!
Verification of the column-summarization core and catalog-client boundary of
`comparador.py` (a Streamlit dashboard comparing a local CSV against a CKAN
resource).  The pandas `DataFrame` is embedded as a rectangular table of cells;
numeric cell values are modelled as exact rationals (the floating-point
computations of the source involve no rounding that can change any of the
compared or reported discrete outcomes, see the comment at `umbralCat`), and
the floating-point `NaN` placeholder is modelled as `Option.none`.
-/

namespace Comparador

/-- A cell of a pandas column: missing (`None`/`NaN`), a number, or a string. -/
inductive Cell where
  | null : Cell
  | num : ℚ → Cell
  | str : String → Cell
deriving DecidableEq, Repr

/-- `pd.isna` on one cell. -/
def Cell.isNull : Cell → Bool
  | .null => true
  | _ => false

/-- The numeric payload of a cell, if any. -/
def Cell.toNum : Cell → Option ℚ
  | .num q => some q
  | _ => none

/-- The string payload of a cell, if any. -/
def Cell.toStr : Cell → Option String
  | .str s => some s
  | _ => none

/-- The dtype pandas inferred for a column: `is_numeric_dtype`,
`is_string_dtype`, or neither (the silently skipped kind). -/
inductive Dtype where
  | numeric : Dtype
  | string : Dtype
  | other : Dtype
deriving DecidableEq, Repr

/-- One named column of a DataFrame (`df[col]`, a pandas Series). -/
structure Col where
  name : String
  dtype : Dtype
  cells : List Cell
deriving DecidableEq, Repr

/-- A pandas DataFrame: its row count (`len(df)`) and its ordered columns. -/
structure DataFrame where
  nrows : ℕ
  cols : List Col
deriving DecidableEq, Repr

/-- The rectangularity invariant of a DataFrame: every column has `nrows`
cells. -/
def Rectangular (df : DataFrame) : Prop :=
  ∀ c ∈ df.cols, c.cells.length = df.nrows

/-- `serie.isna().sum()`: number of missing cells of one column. -/
def nulosDe (cells : List Cell) : ℕ :=
  cells.countP Cell.isNull

/-- The numeric values of a column, nulls dropped (what `mean`, `std`,
`min`, `median`, `max` aggregate over, since pandas skips `NaN`). -/
def numVals (cells : List Cell) : List ℚ :=
  cells.filterMap Cell.toNum

/-- The string values of a column, nulls dropped (`serie.dropna()` on a
string column). -/
def strVals (cells : List Cell) : List String :=
  cells.filterMap Cell.toStr

/-- Distinct elements in order of first occurrence
(`serie.dropna().unique()`). -/
def firstOccAux (seen : List String) : List String → List String
  | [] => []
  | a :: l => if a ∈ seen then firstOccAux seen l else a :: firstOccAux (a :: seen) l

/-- `serie.dropna().unique()`: distinct non-null values, first occurrence
order. -/
def unicos (l : List String) : List String :=
  firstOccAux [] l

/-- `serie.mean()` (skipna): `NaN` — i.e. `none` — when there is no non-null
value, else the arithmetic mean.  The source guards with
`if not serie.empty else np.nan`, but `serie.mean()` is itself `NaN` on an
all-null column, so both the zero-row and the all-null case yield `none`. -/
def pdMean (vals : List ℚ) : Option ℚ :=
  if vals.length = 0 then none else some (vals.sum / vals.length)

/-- The sample variance, `Σ (x − mean)² / (n − 1)`.  Only evaluated for
`n ≥ 2`. -/
def sampleVar (vals : List ℚ) : ℚ :=
  let n : ℚ := vals.length
  let m : ℚ := vals.sum / n
  (vals.map (fun x => (x - m) ^ 2)).sum / (n - 1)

/-- `serie.std()` (ddof = 1): `NaN` for fewer than two non-null values.  The
value reported by pandas is the square root of `sampleVar`; since that root
need not be rational the embedding carries the variance itself, which
determines the std and shares its definedness. -/
def pdStdSq (vals : List ℚ) : Option ℚ :=
  if vals.length < 2 then none else some (sampleVar vals)

/-- `serie.min()` (skipna): `NaN` on an empty value list. -/
def pdMin (vals : List ℚ) : Option ℚ :=
  vals.min?

/-- `serie.max()` (skipna): `NaN` on an empty value list. -/
def pdMax (vals : List ℚ) : Option ℚ :=
  vals.max?

/-- `serie.median()` (skipna): sort the non-null values; the middle one for
odd counts, the average of the two middle ones for even counts; `NaN` when
there is none. -/
def pdMedian (vals : List ℚ) : Option ℚ :=
  let s := vals.mergeSort (fun a b => decide (a ≤ b))
  let n := vals.length
  if n = 0 then none
  else if n % 2 = 1 then some (s.getD (n / 2) 0)
  else some ((s.getD (n / 2 - 1) 0 + s.getD (n / 2) 0) / 2)

/-- `serie.value_counts()`: pairs (distinct non-null value, occurrence
count), sorted by count descending.  The pre-sort order is first occurrence
and the sort is stable, fixing the tie order the source leaves to the
underlying library ("stable, otherwise unspecified"). -/
def value_counts (vals : List String) : List (String × ℕ) :=
  ((unicos vals).map (fun v => (v, vals.count v))).mergeSort
    (fun a b => decide (b.2 ≤ a.2))

/-- `f"{v} ({c})"` for one value/count pair. -/
def fmtPar (p : String × ℕ) : String :=
  p.1 ++ " (" ++ toString p.2 ++ ")"

/-- The `Top 5 valores` string: `", ".join(f"{v} ({c})" ...)` over
`value_counts().head(5)`. -/
def topStr (vals : List String) : String :=
  String.intercalate ", " (((value_counts vals).take 5).map fmtPar)

/-- The record appended to `resumen_numericas` for one numeric column.  The
`std` field holds the square of the reported standard deviation (see
`pdStdSq`); every `none` is a `NaN` in the source output. -/
structure NumRecord where
  columna : String
  count : ℕ
  mean : Option ℚ
  std : Option ℚ
  min : Option ℚ
  median : Option ℚ
  max : Option ℚ
deriving DecidableEq, Repr

/-- The record appended to `resumen_texto_repetido` for one categorical
column. -/
structure CatRecord where
  columna : String
  categoriasUnicas : ℕ
  top5 : String
deriving DecidableEq, Repr

/-- The record appended to `resumen_texto_unico` for one unique-text
column. -/
structure UniRecord where
  columna : String
  valoresNoNulos : ℕ
  nulos : ℕ
  valoresUnicos : ℕ
deriving DecidableEq, Repr

/-- What the loop body of `resumen_por_tipo` does with one column. -/
inductive Clasificacion where
  | num : NumRecord → Clasificacion
  | cat : CatRecord → Clasificacion
  | uni : UniRecord → Clasificacion
  | skipped : Clasificacion
deriving DecidableEq, Repr

/-- The numeric-branch record of the loop body: `count` is `serie.count()`
(non-null entries; on a numeric column these are exactly the numeric cells),
the statistics are pandas aggregations guarded by `if not serie.empty`, with
pandas itself returning `NaN` on an empty aggregation. -/
def mkNum (c : Col) : NumRecord :=
  let vals := numVals c.cells
  { columna := c.name
    count := vals.length
    mean := if c.cells.isEmpty then none else pdMean vals
    std := if c.cells.isEmpty then none else pdStdSq vals
    min := if c.cells.isEmpty then none else pdMin vals
    median := if c.cells.isEmpty then none else pdMedian vals
    max := if c.cells.isEmpty then none else pdMax vals }

/-- The categorical-branch record of the loop body. -/
def mkCat (c : Col) : CatRecord :=
  { columna := c.name
    categoriasUnicas := (unicos (strVals c.cells)).length
    top5 := topStr (strVals c.cells) }

/-- The unique-text-branch record of the loop body. -/
def mkUni (c : Col) : UniRecord :=
  { columna := c.name
    valoresNoNulos := c.cells.length - nulosDe c.cells
    nulos := nulosDe c.cells
    valoresUnicos := (unicos (strVals c.cells)).length }

/-- The loop body of `resumen_por_tipo` on one column: numeric dtype goes to
the numeric bucket; string dtype is split by `n_unicos < n_total * 0.8`;
any other dtype falls through both branches.  The float comparison
`n_unicos < n_total * 0.8` is modelled exactly by the rational comparison
`5 * n_unicos < 4 * n_total`: for `n_total` not divisible by 5 the float
product is within `10⁻¹⁰` of `0.8 · n_total`, which is at distance ≥ 0.2
from any integer, and for `n_total = 5k` the IEEE-754 double product
`n_total * 0.8` is exactly `4k` (the exact product `4k·(1 + 2⁻⁵⁴)` is under
half an ulp above `4k`), so both comparisons agree on every integer
`n_unicos`. -/
def umbralCat (n_unicos n_total : ℕ) : Bool :=
  decide (5 * n_unicos < 4 * n_total)

/-- The body of the `for col in df.columns` loop of `resumen_por_tipo`. -/
def clasifica (c : Col) : Clasificacion :=
  match c.dtype with
  | .numeric => .num (mkNum c)
  | .string =>
      let n_unicos := (unicos (strVals c.cells)).length
      let n_total := c.cells.length
      if umbralCat n_unicos n_total then .cat (mkCat c) else .uni (mkUni c)
  | .other => .skipped

/-- The three accumulating lists of `resumen_por_tipo`, built in column
order. -/
def resumenAux : List Col → List NumRecord × List CatRecord × List UniRecord
  | [] => ([], [], [])
  | c :: rest =>
      let (ns, cs, us) := resumenAux rest
      match clasifica c with
      | .num r => (r :: ns, cs, us)
      | .cat r => (ns, r :: cs, us)
      | .uni r => (ns, cs, r :: us)
      | .skipped => (ns, cs, us)

/-- `resumen_por_tipo(df)`: the three per-kind summary tables (numeric,
repeated-text, unique-text). -/
def resumen_por_tipo (df : DataFrame) :
    List NumRecord × List CatRecord × List UniRecord :=
  resumenAux df.cols

/-- The single row of the `resumen_general` table. -/
structure ResumenGeneral where
  filas : ℕ
  columnas : ℕ
  nulosTotales : ℕ
deriving DecidableEq, Repr

/-- `resumen_general(df)`: `len(df)`, `len(df.columns)`,
`df.isna().sum().sum()`. -/
def resumen_general (df : DataFrame) : ResumenGeneral :=
  { filas := df.nrows
    columnas := df.cols.length
    nulosTotales := (df.cols.map (fun c => nulosDe c.cells)).sum }

/-- The Paso 3 step of the dashboard for one pane: compute both summaries of
the session's DataFrame and keep that DataFrame in the session unchanged
(the source only reads `df`; neither summary mutates it). -/
def mostrar_resumenes (df : DataFrame) :
    (ResumenGeneral × (List NumRecord × List CatRecord × List UniRecord)) ×
      DataFrame :=
  ((resumen_general df, resumen_por_tipo df), df)

/-! ### Catalog client and local loader

Each network helper wraps `requests` calls and JSON access in one
`try/except`.  The external world is passed in as a value: a call that
raised anywhere inside the `try` (transport error, `raise_for_status`,
JSON decoding) is the `fail` case, and a successfully parsed JSON body is
the `ok` case, with every `.get(key, default)` access modelled by an
`Option` field. -/

/-- Outcome of an HTTP request together with response parsing: either the
parsed payload or a raised-and-caught exception message. -/
inductive Http (α : Type) where
  | ok : α → Http α
  | fail : String → Http α

/-- Body of `organization_list`: `.get("result", [])`. -/
structure OrgListBody where
  result : Option (List String)

/-- `obtener_instituciones`: the institution list, `[]` on any failure. -/
def obtener_instituciones (resp : Http OrgListBody) : List String :=
  match resp with
  | .fail _ => []
  | .ok body => body.result.getD []

/-- `result` object of `package_search`: `.get("packages", [])`; datasets
are kept abstract as their identifiers. -/
structure PkgSearchResult where
  packages : Option (List String)

/-- Body of `package_search`: `.get("result", {})`. -/
structure PkgSearchBody where
  result : Option PkgSearchResult

/-- `obtener_datasets_institucion`: the dataset list, `[]` on any
failure. -/
def obtener_datasets_institucion (resp : Http PkgSearchBody) : List String :=
  match resp with
  | .fail _ => []
  | .ok body => (body.result.bind (fun r => r.packages)).getD []

/-- `result` object of `package_show`: `.get("resources", [])`; resources
are kept abstract as their identifiers. -/
structure PkgShowResult where
  resources : Option (List String)

/-- Body of `package_show`: `.get("result", {})`. -/
structure PkgShowBody where
  result : Option PkgShowResult

/-- `obtener_recursos_dataset`: the resource list, `[]` on any failure. -/
def obtener_recursos_dataset (resp : Http PkgShowBody) : List String :=
  match resp with
  | .fail _ => []
  | .ok body => (body.result.bind (fun r => r.resources)).getD []

/-- `result` object of `resource_show`: optional `size` and `url` keys. -/
structure ResShowResult where
  size : Option ℤ
  url : Option String

/-- Body of `resource_show`: `.get("result", {})` / `data["result"]`. -/
structure ResShowBody where
  result : Option ResShowResult

/-- Round half to even, as Python's fixed-point string formatting does on
the quotient. -/
def roundHalfEven (q : ℚ) : ℤ :=
  if q - ⌊q⌋ < 1 / 2 then ⌊q⌋
  else if q - ⌊q⌋ > 1 / 2 then ⌊q⌋ + 1
  else if ⌊q⌋ % 2 = 0 then ⌊q⌋ else ⌊q⌋ + 1

/-- Two-digit rendering of a remainder below 100. -/
def twoDigits (n : ℤ) : String :=
  if n < 10 then "0" ++ toString n else toString n

/-- `f"{mb:.2f} MB"` for `mb = size / (1024 * 1024)`, with the division and
rounding done exactly on rationals; the binary-float pipeline of the source
can deviate only in half-ulp ties of the second decimal, which no compared
outcome depends on. -/
def formatMB (n : ℤ) : String :=
  let cents := roundHalfEven ((100 * n : ℚ) / (1024 * 1024))
  toString (cents / 100) ++ "." ++ twoDigits (cents % 100) ++ " MB"

/-- `obtener_tamano_legible(size)`: the `"{mb:.2f} MB"` display when `size`
is truthy and `str(size).isdigit()` (so positive; `0` is falsy, a negative
renders with a sign and fails `isdigit`), else `"Tamaño desconocido"`. -/
def obtener_tamano_legible (size : Option ℤ) : String :=
  match size with
  | none => "Tamaño desconocido"
  | some n => if n ≠ 0 ∧ 0 ≤ n then formatMB n else "Tamaño desconocido"

/-- Python truthiness of the optional integer `size`: `None` and `0` are
falsy. -/
def truthyInt (o : Option ℤ) : Option ℤ :=
  match o with
  | some n => if n = 0 then none else some n
  | none => none

/-- `obtener_tamano_recurso_ckan`: catalog-reported `size` when truthy;
otherwise a HEAD request on the resource's `url` (when truthy) whose
`Content-Length` header defaults to `0` when absent; `None` when the `url`
is missing or falsy or anything raised. -/
def obtener_tamano_recurso_ckan (resp : Http ResShowBody)
    (head : String → Http (Option ℤ)) : Option ℤ :=
  match resp with
  | .fail _ => none
  | .ok body =>
      match truthyInt (body.result.bind (fun r => r.size)) with
      | some n => some n
      | none =>
          match body.result.bind (fun r => r.url) with
          | some u =>
              if u = "" then none
              else
                match head u with
                | .fail _ => none
                | .ok cl => some (cl.getD 0)
          | none => none

/-- `descargar_recurso_ckan`: `resource_show`, then `data["result"]["url"]`
(a missing key raises `KeyError`, caught like every other failure), then the
bulk download, then `pd.read_csv`; `None` as soon as any step fails. -/
def descargar_recurso_ckan (resp : Http ResShowBody)
    (fetch : String → Http String)
    (parse : String → Except String DataFrame) : Option DataFrame :=
  match resp with
  | .fail _ => none
  | .ok body =>
      match body.result with
      | none => none
      | some r =>
          match r.url with
          | none => none
          | some u =>
              match fetch u with
              | .fail _ => none
              | .ok raw =>
                  match parse raw with
                  | .error _ => none
                  | .ok df => some df

/-- `leer_csv_local`: `pd.read_csv(archivo)` with any parse failure caught,
returning `None`. -/
def leer_csv_local (parse : Except String DataFrame) : Option DataFrame :=
  match parse with
  | .error _ => none
  | .ok df => some df

/-! ### Specification-side definitions

These follow the spec's words rather than the source, for the refinement
statements that compare the two. -/

/-- Spec side: `n_unique`, "the number of distinct non-null values" of a
column, as the cardinality of the set of its string values. -/
def nUniqueSpec (c : Col) : ℕ :=
  (strVals c.cells).toFinset.card

/-- Spec side: the classification threshold `n_unique < 0.8 × n_total`,
with `n_total` the column's total row count including nulls. -/
def esCategorica (c : Col) : Prop :=
  (nUniqueSpec c : ℚ) < 4 / 5 * (c.cells.length : ℚ)

instance (c : Col) : Decidable (esCategorica c) := by
  unfold esCategorica; infer_instance

/-- Spec side: the Unique-text record, "column name, non-null count, null
count, `n_unique`". -/
def uniRecordSpec (c : Col) : UniRecord :=
  { columna := c.name
    valoresNoNulos := c.cells.countP (fun x => !x.isNull)
    nulos := c.cells.countP Cell.isNull
    valoresUnicos := nUniqueSpec c }

/-- Spec side: the total null count "obtained by brute-force enumeration
over all cells", indexing every (column, row) pair. -/
def bruteNulos (df : DataFrame) : ℕ :=
  (df.cols.map (fun c =>
    ((List.range df.nrows).map (fun i =>
      if (c.cells.getD i .null).isNull then 1 else 0)).sum)).sum

/-! ### Helper lemmas -/

lemma mem_firstOccAux (x : String) :
    ∀ (seen l : List String),
      x ∈ firstOccAux seen l ↔ x ∈ l ∧ x ∉ seen := by
  intro seen l
  induction l generalizing seen with
  | nil => simp [firstOccAux]
  | cons a l ih =>
      rw [firstOccAux]
      split_ifs with ha
      · rw [ih]
        simp only [List.mem_cons]
        constructor
        · rintro ⟨hx, hns⟩; exact ⟨Or.inr hx, hns⟩
        · rintro ⟨rfl | hx, hns⟩
          · exact absurd ha hns
          · exact ⟨hx, hns⟩
      · simp only [List.mem_cons, ih]
        constructor
        · rintro (rfl | ⟨hx, hns⟩)
          · exact ⟨Or.inl rfl, ha⟩
          · exact ⟨Or.inr hx, fun hs => hns (Or.inr hs)⟩
        · rintro ⟨rfl | hx, hns⟩
          · exact Or.inl rfl
          · by_cases hxa : x = a
            · exact Or.inl hxa
            · refine Or.inr ⟨hx, fun hs => ?_⟩
              rcases hs with h | h
              · exact hxa h
              · exact hns h

lemma nodup_firstOccAux : ∀ (seen l : List String), (firstOccAux seen l).Nodup := by
  intro seen l
  induction l generalizing seen with
  | nil => exact List.nodup_nil
  | cons a l ih =>
      rw [firstOccAux]
      split_ifs with ha
      · exact ih seen
      · refine List.nodup_cons.mpr ⟨?_, ih (a :: seen)⟩
        intro hx
        exact ((mem_firstOccAux a (a :: seen) l).mp hx).2 (List.mem_cons_self a seen)

/-- The distinct-value list of the source has exactly the spec's
distinct-set cardinality. -/
lemma length_unicos (l : List String) :
    (unicos l).length = l.toFinset.card := by
  have hsub : (unicos l).toFinset = l.toFinset := by
    ext x
    simp [unicos, List.mem_toFinset, mem_firstOccAux]
  have hnd : (unicos l).Nodup := nodup_firstOccAux [] l
  rw [← hsub, List.toFinset_card_of_nodup hnd]

/-- The source's float threshold, as embedded, agrees with the spec's
`n_unique < 0.8 × n_total`. -/
lemma umbralCat_iff (u t : ℕ) :
    umbralCat u t = true ↔ (u : ℚ) < 4 / 5 * (t : ℚ) := by
  rw [umbralCat, decide_eq_true_iff]
  rw [show ((4 : ℚ) / 5 * t = 4 * t / 5) by ring]
  rw [lt_div_iff₀ (by norm_num : (0 : ℚ) < 5)]
  constructor
  · intro h
    have : ((5 * u : ℕ) : ℚ) < ((4 * t : ℕ) : ℚ) := by exact_mod_cast h
    push_cast at this ⊢
    linarith
  · intro h
    have : ((5 * u : ℕ) : ℚ) < ((4 * t : ℕ) : ℚ) := by push_cast; linarith
    exact_mod_cast this

lemma countP_not_isNull (l : List Cell) :
    l.countP (fun x => !x.isNull) + l.countP Cell.isNull = l.length := by
  induction l with
  | nil => rfl
  | cons a l ih =>
      cases a <;> simp [List.countP_cons, Cell.isNull] at ih ⊢ <;> omega

/-- Complement counting: non-null count as the source computes it
(`len(serie) - serie.isna().sum()`) equals the direct count of non-null
cells. -/
lemma no_nulos_eq_countP (cells : List Cell) :
    cells.length - nulosDe cells = cells.countP (fun x => !x.isNull) := by
  rw [nulosDe, ← countP_not_isNull cells]
  omega

/-- The three buckets are the `filterMap`s of the loop body over the
columns. -/
lemma resumenAux_eq_filterMap (cols : List Col) :
    resumenAux cols =
      (cols.filterMap (fun c =>
        match clasifica c with | .num r => some r | _ => none),
       cols.filterMap (fun c =>
        match clasifica c with | .cat r => some r | _ => none),
       cols.filterMap (fun c =>
        match clasifica c with | .uni r => some r | _ => none)) := by
  induction cols with
  | nil => rfl
  | cons c rest ih =>
      simp only [resumenAux, ih, List.filterMap_cons]
      cases h : clasifica c <;> simp [h]

lemma num_mem_resumen (df : DataFrame) (c : Col) (r : NumRecord)
    (hc : c ∈ df.cols) (h : clasifica c = .num r) :
    r ∈ (resumen_por_tipo df).1 := by
  rw [resumen_por_tipo, resumenAux_eq_filterMap]
  exact List.mem_filterMap.mpr ⟨c, hc, by rw [h]⟩

lemma cat_mem_resumen (df : DataFrame) (c : Col) (r : CatRecord)
    (hc : c ∈ df.cols) (h : clasifica c = .cat r) :
    r ∈ (resumen_por_tipo df).2.1 := by
  rw [resumen_por_tipo, resumenAux_eq_filterMap]
  exact List.mem_filterMap.mpr ⟨c, hc, by rw [h]⟩

lemma uni_mem_resumen (df : DataFrame) (c : Col) (r : UniRecord)
    (hc : c ∈ df.cols) (h : clasifica c = .uni r) :
    r ∈ (resumen_por_tipo df).2.2 := by
  rw [resumen_por_tipo, resumenAux_eq_filterMap]
  exact List.mem_filterMap.mpr ⟨c, hc, by rw [h]⟩

/-- Per-column brute-force enumeration of nulls agrees with
`serie.isna().sum()`. -/
lemma brute_col_eq_nulosDe (l : List Cell) :
    ((List.range l.length).map (fun i =>
      if (l.getD i .null).isNull then 1 else 0)).sum = nulosDe l := by
  induction l with
  | nil => rfl
  | cons a l ih =>
      rw [List.length_cons, List.range_succ_eq_map, List.map_cons,
        List.map_map, List.sum_cons]
      have h2 : ((fun i => if ((a :: l).getD i .null).isNull then (1 : ℕ) else 0)
          ∘ Nat.succ) =
          (fun i => if (l.getD i .null).isNull then (1 : ℕ) else 0) := rfl
      rw [h2, ih]
      simp only [nulosDe, List.countP_cons, List.getD_cons_zero]
      cases a <;> (simp [Cell.isNull]; try omega)

lemma clasifica_eq_num (c : Col) (h : c.dtype = .numeric) :
    clasifica c = .num (mkNum c) := by
  unfold clasifica
  rw [h]

lemma clasifica_eq_skipped (c : Col) (h : c.dtype = .other) :
    clasifica c = .skipped := by
  unfold clasifica
  rw [h]

/-- The loop's threshold test coincides with the spec's
`n_unique < 0.8 × n_total`. -/
lemma umbral_esCategorica (c : Col) :
    umbralCat (unicos (strVals c.cells)).length c.cells.length = true ↔
      esCategorica c := by
  rw [umbralCat_iff, length_unicos]
  unfold esCategorica nUniqueSpec
  exact Iff.rfl

lemma clasifica_eq_cat (c : Col) (h : c.dtype = .string)
    (hcat : esCategorica c) : clasifica c = .cat (mkCat c) := by
  unfold clasifica
  rw [h]
  simp only [(umbral_esCategorica c).mpr hcat, if_true]

lemma clasifica_eq_uni (c : Col) (h : c.dtype = .string)
    (hcat : ¬ esCategorica c) : clasifica c = .uni (mkUni c) := by
  unfold clasifica
  rw [h]
  have : umbralCat (unicos (strVals c.cells)).length c.cells.length = false := by
    rw [← Bool.not_eq_true, umbral_esCategorica c]
    exact hcat
  simp only [this, Bool.false_eq_true, if_false]

/-- The unique-text record built by the loop equals the record the spec
describes (non-null count, null count, distinct-value count). -/
lemma mkUni_eq_spec (c : Col) : mkUni c = uniRecordSpec c := by
  unfold mkUni uniRecordSpec nUniqueSpec
  rw [UniRecord.mk.injEq]
  exact ⟨rfl, no_nulos_eq_countP c.cells, rfl, length_unicos _⟩

lemma filterMap_eq_filter_map {α β : Type} (f : α → Option β) (p : α → Bool)
    (g : α → β) (l : List α)
    (h : ∀ a ∈ l, f a = if p a then some (g a) else none) :
    l.filterMap f = (l.filter p).map g := by
  induction l with
  | nil => rfl
  | cons a t ih =>
      rw [List.filterMap_cons, List.filter_cons,
        h a (List.mem_cons_self a t)]
      have ht := ih (fun x hx => h x (List.mem_cons_of_mem a hx))
      by_cases hp : p a = true
      · rw [if_pos hp, if_pos hp, List.map_cons, ht]
      · rw [if_neg hp, if_neg hp, ht]

lemma numVals_length_eq (cells : List Cell)
    (h : ∀ x ∈ cells, x.toStr = none) :
    (numVals cells).length = cells.countP (fun x => !x.isNull) := by
  induction cells with
  | nil => rfl
  | cons a l ih =>
      have ih2 := ih (fun x hx => h x (List.mem_cons_of_mem a hx))
      rcases a with _ | q | s
      · simpa [numVals, Cell.toNum, List.filterMap_cons, List.countP_cons,
          Cell.isNull] using ih2
      · simpa [numVals, Cell.toNum, List.filterMap_cons, List.countP_cons,
          Cell.isNull] using ih2
      · exact absurd (h (.str s) (List.mem_cons_self _ _)) (by simp [Cell.toStr])

lemma min?_spec (xs : List ℚ) (a : ℚ) (h : xs.min? = some a) :
    a ∈ xs ∧ ∀ b ∈ xs, a ≤ b := by
  haveI : Std.Antisymm (fun x1 x2 : ℚ => x1 ≤ x2) :=
    ⟨fun h1 h2 => le_antisymm h1 h2⟩
  rw [List.min?_eq_some_iff (fun a => le_refl a) (fun a b => min_choice a b)
    (fun a b c => le_min_iff)] at h
  exact h

lemma max?_spec (xs : List ℚ) (a : ℚ) (h : xs.max? = some a) :
    a ∈ xs ∧ ∀ b ∈ xs, b ≤ a := by
  haveI : Std.Antisymm (fun x1 x2 : ℚ => x1 ≤ x2) :=
    ⟨fun h1 h2 => le_antisymm h1 h2⟩
  rw [List.max?_eq_some_iff (fun a => le_refl a) (fun a b => max_choice a b)
    (fun a b c => max_le_iff)] at h
  exact h

lemma sorted_mergeSort_le (vals : List ℚ) :
    List.Sorted (· ≤ ·) (vals.mergeSort (fun a b => decide (a ≤ b))) := by
  have htrans : ∀ a b c : ℚ, decide (a ≤ b) = true → decide (b ≤ c) = true →
      decide (a ≤ c) = true := by
    intro a b c hab hbc
    rw [decide_eq_true_iff] at hab hbc ⊢
    exact le_trans hab hbc
  have htot : ∀ a b : ℚ, (decide (a ≤ b) || decide (b ≤ a)) = true := by
    intro a b
    rcases le_total a b with h | h <;> simp [h]
  exact (List.sorted_mergeSort htrans htot vals).imp
    (fun hab => of_decide_eq_true hab)

lemma mkNum_count (c : Col) : (mkNum c).count = (numVals c.cells).length := rfl

lemma numVals_of_empty {cells : List Cell} (h : cells.isEmpty) :
    numVals cells = [] := by
  rw [List.isEmpty_iff.mp h]
  rfl

lemma mkNum_mean (c : Col) : (mkNum c).mean = pdMean (numVals c.cells) := by
  by_cases hce : c.cells.isEmpty
  · simp [mkNum, hce, numVals_of_empty hce, pdMean]
  · simp [mkNum, hce]

lemma mkNum_std (c : Col) : (mkNum c).std = pdStdSq (numVals c.cells) := by
  by_cases hce : c.cells.isEmpty
  · simp [mkNum, hce, numVals_of_empty hce, pdStdSq]
  · simp [mkNum, hce]

lemma mkNum_min (c : Col) : (mkNum c).min = pdMin (numVals c.cells) := by
  by_cases hce : c.cells.isEmpty
  · simp [mkNum, hce, numVals_of_empty hce, pdMin]
  · simp [mkNum, hce]

lemma mkNum_max (c : Col) : (mkNum c).max = pdMax (numVals c.cells) := by
  by_cases hce : c.cells.isEmpty
  · simp [mkNum, hce, numVals_of_empty hce, pdMax]
  · simp [mkNum, hce]

lemma mkNum_median (c : Col) : (mkNum c).median = pdMedian (numVals c.cells) := by
  by_cases hce : c.cells.isEmpty
  · simp [mkNum, hce, numVals_of_empty hce, pdMedian]
  · simp [mkNum, hce]

lemma pdMean_eq_none_iff (vals : List ℚ) :
    pdMean vals = none ↔ vals.length = 0 := by
  unfold pdMean
  split <;> simp_all

lemma pdMean_spec (vals : List ℚ) (m : ℚ) (h : pdMean vals = some m) :
    m * (vals.length : ℚ) = vals.sum := by
  unfold pdMean at h
  split at h
  · exact absurd h (by simp)
  · rename_i hn
    rw [Option.some_inj] at h
    rw [← h, div_mul_cancel₀]
    exact Nat.cast_ne_zero.mpr hn

lemma pdStdSq_eq_none_iff (vals : List ℚ) :
    pdStdSq vals = none ↔ vals.length < 2 := by
  unfold pdStdSq
  split <;> simp_all

lemma pdStdSq_spec (vals : List ℚ) (v : ℚ) (h : pdStdSq vals = some v) :
    v * ((vals.length : ℚ) - 1) =
      (vals.map (fun x => (x - vals.sum / (vals.length : ℚ)) ^ 2)).sum := by
  unfold pdStdSq at h
  split at h
  · exact absurd h (by simp)
  · rename_i hn
    rw [Option.some_inj] at h
    rw [← h]
    unfold sampleVar
    rw [div_mul_cancel₀]
    have h2 : (2 : ℚ) ≤ (vals.length : ℚ) := by
      exact_mod_cast Nat.le_of_not_lt hn
    intro hzero
    have : (vals.length : ℚ) = 1 := by linarith [sub_eq_zero.mp hzero]
    linarith

lemma pdMedian_eq_none_iff (vals : List ℚ) :
    pdMedian vals = none ↔ vals.length = 0 := by
  unfold pdMedian
  by_cases h0 : vals.length = 0
  · simp [h0]
  · by_cases h1 : vals.length % 2 = 1 <;> simp [h0, h1]

/-! ### The claims -/

/-- C1: the Categorical bucket holds exactly the string-dtype columns with
`n_unique < 0.8 × n_total` (`n_unique` the number of distinct non-null
values, `n_total` the column's row count including nulls), and the
Unique-text bucket holds exactly the remaining string-dtype columns, each
recorded as (column name, non-null count, null count, `n_unique`). -/
theorem C1_umbral_clasificacion (df : DataFrame) :
    (resumen_por_tipo df).2.1 =
      (df.cols.filter (fun c => decide (c.dtype = .string) &&
        decide (esCategorica c))).map mkCat ∧
    (resumen_por_tipo df).2.2 =
      (df.cols.filter (fun c => decide (c.dtype = .string) &&
        !decide (esCategorica c))).map uniRecordSpec := by
  rw [resumen_por_tipo, resumenAux_eq_filterMap]
  constructor
  · apply filterMap_eq_filter_map
    intro a _
    rcases hdt : a.dtype with _ | _ | _
    · rw [clasifica_eq_num a hdt]
      simp [hdt]
    · by_cases hcat : esCategorica a
      · rw [clasifica_eq_cat a hdt hcat]
        simp [hdt, hcat]
      · rw [clasifica_eq_uni a hdt hcat]
        simp [hdt, hcat]
    · rw [clasifica_eq_skipped a hdt]
      simp [hdt]
  · apply filterMap_eq_filter_map
    intro a _
    rcases hdt : a.dtype with _ | _ | _
    · rw [clasifica_eq_num a hdt]
      simp [hdt]
    · by_cases hcat : esCategorica a
      · rw [clasifica_eq_cat a hdt hcat]
        simp [hdt, hcat]
      · rw [clasifica_eq_uni a hdt hcat]
        simp [hdt, hcat, mkUni_eq_spec]
    · rw [clasifica_eq_skipped a hdt]
      simp [hdt]

/-- C2: every numeric-dtype column contributes to the numeric bucket a
record whose count is the number of non-null cells, whose mean satisfies
`mean × count = sum` of the non-null values (`NaN` exactly when there are
none), whose std is `NaN` exactly when fewer than 2 non-null values exist
and otherwise is the divide-by-(n−1) sample statistic, whose min/max bound
and belong to the values, whose median is the middle of the sorted values
(average of the two middles for even counts), and which for a zero-row
column is `NaN` everywhere except the count 0. -/
theorem C2_resumen_numerico (df : DataFrame) (c : Col) (hc : c ∈ df.cols)
    (hd : c.dtype = .numeric) (hwf : ∀ x ∈ c.cells, x.toStr = none) :
    mkNum c ∈ (resumen_por_tipo df).1 ∧
    (mkNum c).count = c.cells.countP (fun x => !x.isNull) ∧
    ((mkNum c).mean = none ↔ (mkNum c).count = 0) ∧
    (∀ m, (mkNum c).mean = some m →
      m * ((mkNum c).count : ℚ) = (numVals c.cells).sum) ∧
    ((mkNum c).std = none ↔ (mkNum c).count < 2) ∧
    (∀ v, (mkNum c).std = some v →
      v * (((mkNum c).count : ℚ) - 1) =
        ((numVals c.cells).map (fun x =>
          (x - (numVals c.cells).sum / ((mkNum c).count : ℚ)) ^ 2)).sum) ∧
    (∀ q, (mkNum c).min = some q →
      q ∈ numVals c.cells ∧ ∀ x ∈ numVals c.cells, q ≤ x) ∧
    (∀ q, (mkNum c).max = some q →
      q ∈ numVals c.cells ∧ ∀ x ∈ numVals c.cells, x ≤ q) ∧
    (∃ s : List ℚ, s.Perm (numVals c.cells) ∧ s.Sorted (· ≤ ·) ∧
      ((mkNum c).count % 2 = 1 →
        (mkNum c).median = some (s.getD ((mkNum c).count / 2) 0)) ∧
      ((mkNum c).count ≠ 0 → (mkNum c).count % 2 = 0 →
        (mkNum c).median = some ((s.getD ((mkNum c).count / 2 - 1) 0 +
          s.getD ((mkNum c).count / 2) 0) / 2))) ∧
    ((mkNum c).median = none ↔ (mkNum c).count = 0) ∧
    (c.cells = [] →
      mkNum c = { columna := c.name, count := 0, mean := none, std := none,
                  min := none, median := none, max := none }) := by
  refine ⟨num_mem_resumen df c _ hc (clasifica_eq_num c hd), ?_, ?_, ?_, ?_,
    ?_, ?_, ?_, ?_, ?_, ?_⟩
  · rw [mkNum_count]
    exact numVals_length_eq c.cells hwf
  · rw [mkNum_mean, mkNum_count]
    exact pdMean_eq_none_iff _
  · intro m hm
    rw [mkNum_mean] at hm
    rw [mkNum_count]
    exact pdMean_spec _ m hm
  · rw [mkNum_std, mkNum_count]
    exact pdStdSq_eq_none_iff _
  · intro v hv
    rw [mkNum_std] at hv
    rw [mkNum_count]
    exact pdStdSq_spec _ v hv
  · intro q hq
    rw [mkNum_min] at hq
    exact min?_spec _ q hq
  · intro q hq
    rw [mkNum_max] at hq
    exact max?_spec _ q hq
  · refine ⟨(numVals c.cells).mergeSort (fun a b => decide (a ≤ b)),
      List.mergeSort_perm _ _, sorted_mergeSort_le _, ?_, ?_⟩
    · intro hodd
      rw [mkNum_median, pdMedian]
      rw [mkNum_count] at hodd
      simp only [if_neg (by omega : ¬ (numVals c.cells).length = 0), if_pos hodd]
      rfl
    · intro hne heven
      rw [mkNum_median, pdMedian]
      rw [mkNum_count] at hne heven
      simp only [if_neg hne, if_neg (by omega : ¬ (numVals c.cells).length % 2 = 1)]
      rfl
  · rw [mkNum_median, mkNum_count]
    exact pdMedian_eq_none_iff _
  · intro hce
    obtain ⟨nm, dt, cl⟩ := c
    simp only at hce
    subst hce
    rfl

/-- Witness for C2 on the single-value column `[7]` of the spec's example:
the theorem applies, and the record is count 1, mean 7, std `NaN`,
min = median = max = 7. -/
theorem C2_resumen_numerico_witness :
    (⟨"x", .numeric, [.num 7]⟩ : Col) ∈
      (⟨1, [⟨"x", .numeric, [.num 7]⟩]⟩ : DataFrame).cols ∧
    (∀ x ∈ (⟨"x", .numeric, [.num 7]⟩ : Col).cells, x.toStr = none) ∧
    mkNum ⟨"x", .numeric, [.num 7]⟩ =
      { columna := "x", count := 1, mean := some 7, std := none,
        min := some 7, median := some 7, max := some 7 } ∧
    mkNum ⟨"x", .numeric, [.num 7]⟩ ∈
      (resumen_por_tipo ⟨1, [⟨"x", .numeric, [.num 7]⟩]⟩).1 :=
  ⟨by decide, by decide,
   by norm_num [mkNum, numVals, List.filterMap, Cell.toNum, pdMean, pdStdSq,
     pdMin, pdMax, pdMedian, List.mergeSort, NumRecord.mk.injEq, List.min?,
     List.max?],
   (C2_resumen_numerico ⟨1, [⟨"x", .numeric, [.num 7]⟩]⟩
     ⟨"x", .numeric, [.num 7]⟩ (by decide) rfl (by decide)).1⟩

/-- C4: the top-values string of every Categorical record is built from the
first five entries of a list of (distinct non-null value, occurrence count)
pairs sorted descending by count (stable tie order), each rendered as
`"value (count)"` and joined by `", "`. -/
theorem C4_top5_valores (df : DataFrame) (c : Col) (hc : c ∈ df.cols)
    (hd : c.dtype = .string) (hcat : esCategorica c) :
    mkCat c ∈ (resumen_por_tipo df).2.1 ∧
    ∃ l : List (String × ℕ),
      l.Perm ((unicos (strVals c.cells)).map
        (fun v => (v, (strVals c.cells).count v))) ∧
      List.Pairwise (fun a b : String × ℕ => b.2 ≤ a.2) l ∧
      (∀ p ∈ l, p.2 = (strVals c.cells).count p.1) ∧
      (mkCat c).top5 = String.intercalate ", " ((l.take 5).map fmtPar) := by
  refine ⟨cat_mem_resumen df c _ hc (clasifica_eq_cat c hd hcat),
    value_counts (strVals c.cells), List.mergeSort_perm _ _, ?_, ?_, rfl⟩
  · have htrans : ∀ a b c' : String × ℕ, decide (b.2 ≤ a.2) = true →
        decide (c'.2 ≤ b.2) = true → decide (c'.2 ≤ a.2) = true := by
      intro a b c' hab hbc
      rw [decide_eq_true_iff] at hab hbc ⊢
      exact le_trans hbc hab
    have htot : ∀ a b : String × ℕ,
        (decide (b.2 ≤ a.2) || decide (a.2 ≤ b.2)) = true := by
      intro a b
      rcases le_total a.2 b.2 with h | h <;> simp [h]
    exact (List.sorted_mergeSort htrans htot _).imp
      (fun hab => of_decide_eq_true hab)
  · intro p hp
    have hp2 := (List.mergeSort_perm ((unicos (strVals c.cells)).map
      (fun v => (v, (strVals c.cells).count v))) _).subset hp
    rcases List.mem_map.mp hp2 with ⟨v, _, hvp⟩
    rw [← hvp]

/-- Witness for C4 on the spec's ten-row example column: the theorem
applies, and the resulting string is "a (3), b (2)" followed by the three
count-1 values in first-occurrence order. -/
theorem C4_top5_valores_witness :
    esCategorica ⟨"t", .string,
      (["a", "a", "a", "b", "b", "c", "d", "e", "f", "g"].map Cell.str)⟩ ∧
    (mkCat ⟨"t", .string,
      (["a", "a", "a", "b", "b", "c", "d", "e", "f", "g"].map Cell.str)⟩).top5 =
      "a (3), b (2), c (1), d (1), e (1)" ∧
    mkCat ⟨"t", .string,
      (["a", "a", "a", "b", "b", "c", "d", "e", "f", "g"].map Cell.str)⟩ ∈
      (resumen_por_tipo ⟨10, [⟨"t", .string,
        (["a", "a", "a", "b", "b", "c", "d", "e", "f", "g"].map Cell.str)⟩]⟩).2.1 :=
  ⟨by
     unfold esCategorica
     rw [show nUniqueSpec ⟨"t", .string,
       (["a", "a", "a", "b", "b", "c", "d", "e", "f", "g"].map Cell.str)⟩ = 7
       from rfl]
     rw [show (⟨"t", .string, (["a", "a", "a", "b", "b", "c", "d", "e", "f",
       "g"].map Cell.str)⟩ : Col).cells.length = 10 from rfl]
     norm_num,
   by
     simp only [mkCat, topStr, value_counts, unicos, strVals, List.map,
       List.filterMap, Cell.toStr, firstOccAux]
     norm_num [List.mergeSort, List.count_cons, fmtPar,
       String.intercalate, List.intersperse]
     simp [List.merge]
     decide,
   (C4_top5_valores ⟨10, [⟨"t", .string,
       (["a", "a", "a", "b", "b", "c", "d", "e", "f", "g"].map Cell.str)⟩]⟩
     ⟨"t", .string,
       (["a", "a", "a", "b", "b", "c", "d", "e", "f", "g"].map Cell.str)⟩
     (by decide) rfl
     (by
       unfold esCategorica
       rw [show nUniqueSpec ⟨"t", .string,
         (["a", "a", "a", "b", "b", "c", "d", "e", "f", "g"].map Cell.str)⟩ = 7
         from rfl]
       rw [show (⟨"t", .string, (["a", "a", "a", "b", "b", "c", "d", "e", "f",
         "g"].map Cell.str)⟩ : Col).cells.length = 10 from rfl]
       norm_num)).1⟩

/-- C3: for every rectangular dataset, `resumen_general` returns the row
count, the column count, and a total null count equal to the brute-force
enumeration of missing cells over all (column, row) positions; the function
is total, so no error is raised. -/
theorem C3_resumen_general_correcto (df : DataFrame) (h : Rectangular df) :
    resumen_general df =
      { filas := df.nrows
        columnas := df.cols.length
        nulosTotales := bruteNulos df } := by
  have hmap : df.cols.map (fun c =>
      ((List.range df.nrows).map (fun i =>
        if (c.cells.getD i .null).isNull then 1 else 0)).sum) =
      df.cols.map (fun c => nulosDe c.cells) := by
    apply List.map_congr_left
    intro c hc
    rw [← h c hc]
    exact brute_col_eq_nulosDe c.cells
  unfold resumen_general bruteNulos
  rw [hmap]

/-- Witness for C3 on a concrete 2×2 table with one missing cell. -/
theorem C3_resumen_general_correcto_witness :
    Rectangular ⟨2, [⟨"a", .numeric, [.num 1, .null]⟩,
        ⟨"b", .string, [.str "x", .str "y"]⟩]⟩ ∧
    resumen_general ⟨2, [⟨"a", .numeric, [.num 1, .null]⟩,
        ⟨"b", .string, [.str "x", .str "y"]⟩]⟩ =
      { filas := 2, columnas := 2,
        nulosTotales := bruteNulos ⟨2, [⟨"a", .numeric, [.num 1, .null]⟩,
          ⟨"b", .string, [.str "x", .str "y"]⟩]⟩ } :=
  ⟨by unfold Rectangular; decide,
   C3_resumen_general_correcto _ (by unfold Rectangular; decide)⟩

/-- C5 counterexample: a numeric-dtype column whose single value is null is
NOT excluded from all three buckets — `resumen_por_tipo` places it in the
numeric bucket (with count 0 and all statistics `NaN`). -/
theorem C5_counterexample :
    ¬ ((resumen_por_tipo ⟨1, [⟨"x", .numeric, [.null]⟩]⟩).1 = [] ∧
       (resumen_por_tipo ⟨1, [⟨"x", .numeric, [.null]⟩]⟩).2.1 = [] ∧
       (resumen_por_tipo ⟨1, [⟨"x", .numeric, [.null]⟩]⟩).2.2 = []) := by
  intro hcontra
  exact absurd hcontra.1 (by decide)

/-- C5 amended: a column whose dtype is neither numeric nor string is
excluded from all three buckets (removing all such columns leaves every
bucket unchanged); an all-null column is excluded only through its dtype,
not through its values. -/
theorem C5_amended_solo_dtype_excluye (cols : List Col) :
    resumenAux (cols.filter (fun c => !decide (c.dtype = .other))) =
      resumenAux cols := by
  induction cols with
  | nil => rfl
  | cons c rest ih =>
      by_cases h : c.dtype = .other
      · have h1 : (c :: rest).filter (fun c => !decide (c.dtype = .other)) =
            rest.filter (fun c => !decide (c.dtype = .other)) := by
          simp [List.filter_cons, h]
        have h2 : clasifica c = .skipped := by
          unfold clasifica
          rw [h]
        rw [h1, ih]
        simp [resumenAux, h2]
      · have h1 : (c :: rest).filter (fun c => !decide (c.dtype = .other)) =
            c :: rest.filter (fun c => !decide (c.dtype = .other)) := by
          simp [List.filter_cons, h]
        rw [h1]
        simp only [resumenAux, ih]

/-- C6: the empty dataset (0 rows, 0 columns) yields the aggregate summary
(0, 0, 0) and three empty classification buckets; both functions are total,
so nothing is raised. -/
theorem C6_dataset_vacio :
    resumen_general ⟨0, []⟩ = { filas := 0, columnas := 0, nulosTotales := 0 } ∧
    resumen_por_tipo ⟨0, []⟩ = ([], [], []) :=
  ⟨rfl, rfl⟩

/-- C7: the summarization step is a pure function of the dataset: it leaves
the session's DataFrame unchanged, and running it again on that unchanged
DataFrame reproduces both summaries exactly. -/
theorem C7_puro_determinista (df : DataFrame) :
    (mostrar_resumenes df).2 = df ∧
    (mostrar_resumenes ((mostrar_resumenes df).2)).1 =
      (mostrar_resumenes df).1 :=
  ⟨rfl, rfl⟩

/-- C8: every transport/payload failure in the three catalog listing calls,
every failure stage of the resource download (metadata call, bulk fetch,
CSV parse), and a local file-parse failure are all caught inside the
function and yield `[]` or `none` for the caller, never an exception. -/
theorem C8_fallos_capturados (e : String) (fetch : String → Http String)
    (parse : String → Except String DataFrame) (u raw : String) :
    obtener_instituciones (.fail e) = [] ∧
    obtener_datasets_institucion (.fail e) = [] ∧
    obtener_recursos_dataset (.fail e) = [] ∧
    descargar_recurso_ckan (.fail e) fetch parse = none ∧
    descargar_recurso_ckan (.ok ⟨some ⟨none, some u⟩⟩) (fun _ => .fail e)
      parse = none ∧
    descargar_recurso_ckan (.ok ⟨some ⟨none, some u⟩⟩) (fun _ => .ok raw)
      (fun _ => .error e) = none ∧
    leer_csv_local (.error e) = none :=
  ⟨rfl, rfl, rfl, rfl, rfl, rfl, rfl⟩

/-- C9: size resolution prefers the truthy catalog-reported size whatever
the HEAD call would answer; with no catalog size it uses the HEAD
`Content-Length`; and with that header also absent it resolves to 0, which
the size display renders as "Tamaño desconocido" rather than an error. -/
theorem C9_resolucion_tamano (n : ℤ) (u : String)
    (head : String → Http (Option ℤ)) (v : ℤ) (szOpt : Option ℤ) :
    (n ≠ 0 →
      obtener_tamano_recurso_ckan (.ok ⟨some ⟨some n, some u⟩⟩) head = some n) ∧
    (truthyInt szOpt = none → u ≠ "" → head u = .ok (some v) →
      obtener_tamano_recurso_ckan (.ok ⟨some ⟨szOpt, some u⟩⟩) head = some v) ∧
    (truthyInt szOpt = none → u ≠ "" → head u = .ok none →
      obtener_tamano_recurso_ckan (.ok ⟨some ⟨szOpt, some u⟩⟩) head = some 0 ∧
      obtener_tamano_legible
        (obtener_tamano_recurso_ckan (.ok ⟨some ⟨szOpt, some u⟩⟩) head) =
        "Tamaño desconocido") := by
  refine ⟨fun hn => ?_, fun hs hu hh => ?_, fun hs hu hh => ?_⟩
  · simp [obtener_tamano_recurso_ckan, truthyInt, hn]
  · simp [obtener_tamano_recurso_ckan, hs, hu, hh]
  · have h0 : obtener_tamano_recurso_ckan (.ok ⟨some ⟨szOpt, some u⟩⟩) head =
        some 0 := by
      simp [obtener_tamano_recurso_ckan, hs, hu, hh]
    refine ⟨h0, ?_⟩
    rw [h0]
    simp [obtener_tamano_legible]

/-- Witness for C9 at concrete sizes and headers. -/
theorem C9_resolucion_tamano_witness :
    obtener_tamano_recurso_ckan (.ok ⟨some ⟨some 5, some "u"⟩⟩)
      (fun _ => .ok none) = some 5 ∧
    obtener_tamano_recurso_ckan (.ok ⟨some ⟨none, some "u"⟩⟩)
      (fun _ => .ok (some 7)) = some 7 ∧
    obtener_tamano_recurso_ckan (.ok ⟨some ⟨none, some "u"⟩⟩)
      (fun _ => .ok none) = some 0 ∧
    obtener_tamano_legible (obtener_tamano_recurso_ckan
      (.ok ⟨some ⟨none, some "u"⟩⟩) (fun _ => .ok none)) =
      "Tamaño desconocido" :=
  ⟨(C9_resolucion_tamano 5 "u" (fun _ => .ok none) 7 none).1 (by decide),
   (C9_resolucion_tamano 5 "u" (fun _ => .ok (some 7)) 7 none).2.1 rfl
     (by decide) rfl,
   ((C9_resolucion_tamano 5 "u" (fun _ => .ok none) 7 none).2.2 rfl
     (by decide) rfl).1,
   ((C9_resolucion_tamano 5 "u" (fun _ => .ok none) 7 none).2.2 rfl
     (by decide) rfl).2⟩

/-- C10: a string-dtype column whose cells are all null goes to the
Categorical bucket when it has at least one row (0 distinct < 0.8 × rows),
with 0 distinct values and an empty top-5 string; with zero rows it goes to
the Unique-text bucket with all counts 0. -/
theorem C10_columna_string_toda_nula (df : DataFrame) (c : Col)
    (hc : c ∈ df.cols) (hd : c.dtype = .string)
    (hnull : ∀ x ∈ c.cells, x = .null) :
    (c.cells ≠ [] →
      clasifica c = .cat { columna := c.name, categoriasUnicas := 0, top5 := "" } ∧
      ({ columna := c.name, categoriasUnicas := 0, top5 := "" } : CatRecord) ∈
        (resumen_por_tipo df).2.1) ∧
    (c.cells = [] →
      clasifica c =
        .uni { columna := c.name, valoresNoNulos := 0, nulos := 0,
               valoresUnicos := 0 } ∧
      ({ columna := c.name, valoresNoNulos := 0, nulos := 0,
         valoresUnicos := 0 } : UniRecord) ∈ (resumen_por_tipo df).2.2) := by
  have hsv : strVals c.cells = [] := by
    rw [strVals, List.filterMap_eq_nil_iff]
    intro x hx
    rw [hnull x hx]
    rfl
  constructor
  · intro hne
    have hlen : 0 < c.cells.length := List.length_pos.mpr hne
    have humb : umbralCat (unicos (strVals c.cells)).length c.cells.length =
        true := by
      rw [hsv]
      simp only [unicos, firstOccAux, List.length_nil, umbralCat]
      rw [decide_eq_true_iff]
      omega
    have hcl : clasifica c =
        .cat { columna := c.name, categoriasUnicas := 0, top5 := "" } := by
      unfold clasifica
      rw [hd]
      simp only [humb, if_true]
      have hint : String.intercalate ", " ([] : List String) = "" := rfl
      simp [mkCat, hsv, topStr, value_counts, unicos, firstOccAux, hint]
    exact ⟨hcl, cat_mem_resumen df c _ hc hcl⟩
  · intro hce
    have hcl : clasifica c =
        .uni { columna := c.name, valoresNoNulos := 0, nulos := 0,
               valoresUnicos := 0 } := by
      unfold clasifica
      rw [hd, hce]
      simp [umbralCat, mkUni, hce, nulosDe, strVals, unicos, firstOccAux]
    exact ⟨hcl, uni_mem_resumen df c _ hc hcl⟩

/-- Witness for C10: one all-null two-row string column and one zero-row
string column. -/
theorem C10_columna_string_toda_nula_witness :
    (({ columna := "a", categoriasUnicas := 0, top5 := "" } : CatRecord) ∈
      (resumen_por_tipo ⟨2, [⟨"a", .string, [.null, .null]⟩,
        ⟨"b", .string, []⟩]⟩).2.1) ∧
    (({ columna := "b", valoresNoNulos := 0, nulos := 0,
        valoresUnicos := 0 } : UniRecord) ∈
      (resumen_por_tipo ⟨2, [⟨"a", .string, [.null, .null]⟩,
        ⟨"b", .string, []⟩]⟩).2.2) :=
  ⟨((C10_columna_string_toda_nula ⟨2, [⟨"a", .string, [.null, .null]⟩,
      ⟨"b", .string, []⟩]⟩ ⟨"a", .string, [.null, .null]⟩ (by decide) rfl
      (by decide)).1 (by decide)).2,
   ((C10_columna_string_toda_nula ⟨2, [⟨"a", .string, [.null, .null]⟩,
      ⟨"b", .string, []⟩]⟩ ⟨"b", .string, []⟩ (by decide) rfl
      (by decide)).2 rfl).2⟩

end Comparador
